import Mathlib

set_option autoImplicit false

/-!
Verification of the rag-sdks core: a shallow embedding of the in-memory
VectorStore (src/vector-store.ts), the Retriever (src/retriever.ts), the
OpenAI embedding adapter (scripts/reset.ts) and the ingestion logic of
collectionProcessor.ts, together with theorems settling the specified
properties of upsert, similarity search, retrieval and ingestion.

Vector components are modelled as rationals; the asynchronous methods are
modelled in an error monad (Except RagError) so that the presence or
absence of rejections is expressible.
-/

namespace RagSdk

/-- A document as passed around the SDK (the data-loader Document shape):
string id, text content, string-keyed metadata and an optional embedding
vector. -/
structure Document where
  id : String
  content : String
  metadata : List (String × String) := []
  embedding : Option (List ℚ) := none
  deriving DecidableEq, Repr

/-- The error taxonomy named by the specification. The shipped placeholder
code never constructs any of these values; modelling the async methods in
an error monad over this type lets the theorems state that fact. -/
inductive RagError where
  | missingEmbedding
  | dimensionMismatch
  | embeddingFailure
  deriving DecidableEq, Repr

/-- JS Map.prototype.set on an association list kept in insertion order:
an existing key has its value replaced in place (its position is kept); a
new key is appended at the end. -/
def mapSet {α : Type} : List (String × α) → String → α → List (String × α)
  | [], k, v => [(k, v)]
  | p :: rest, k, v => if p.1 = k then (k, v) :: rest else p :: mapSet rest k v

/-- JS Map.prototype.get on an association list. -/
def mapGet {α : Type} (m : List (String × α)) (k : String) : Option α :=
  (m.find? (fun p => decide (p.1 = k))).map (fun p => p.2)

/-- The in-memory store inside VectorStore (src/vector-store.ts line 48):
a Map from document id to Document, kept in insertion order. -/
structure VectorStore where
  entries : List (String × Document)
  deriving DecidableEq, Repr

/-- A freshly constructed VectorStore: the constructor initialises the
Map empty. -/
def VectorStore.empty : VectorStore := ⟨[]⟩

/-- Array.from(store.values()): the stored documents in insertion order. -/
def VectorStore.values (s : VectorStore) : List Document :=
  s.entries.map (fun p => p.2)

/-- Number of stored documents. -/
def VectorStore.size (s : VectorStore) : Nat := s.entries.length

/-- The loop body of VectorStore.addDocuments (lines 66-79): for each
document in order, when its embedding is absent one is generated from its
content by the configured embedding model, then store.set(doc.id, doc).
The embedding model is abstracted as a function from text to vector. -/
def addDocumentsRun (embedOne : String → List ℚ) :
    VectorStore → List Document → VectorStore
  | store, [] => store
  | store, doc :: rest =>
      let docStored :=
        if doc.embedding.isSome then doc
        else { doc with embedding := some (embedOne doc.content) }
      addDocumentsRun embedOne ⟨mapSet store.entries docStored.id docStored⟩ rest

/-- VectorStore.addDocuments: async, so its result type admits rejection,
but its body contains no throw and the placeholder embedding model always
yields a vector, so the method always resolves with the updated store. -/
def VectorStore.addDocuments (embedOne : String → List ℚ) (store : VectorStore)
    (documents : List Document) : Except RagError VectorStore :=
  .ok (addDocumentsRun embedOne store documents)

/-- VectorStore.similaritySearch (lines 87-99): the shipped implementation
ignores the query embedding entirely and returns
Array.from(store.values()).slice(0, topK). Async, so the result type
admits rejection, but no error is ever produced. -/
def VectorStore.similaritySearch (store : VectorStore)
    (queryEmbedding : List ℚ) (topK : Nat) : Except RagError (List Document) :=
  .ok (store.values.take topK)

/-- Retriever.retrieve (src/retriever.ts lines 37-56): embed the query as
the singleton batch, destructure the first returned vector; when none came
back, resolve with the empty list; otherwise delegate to similaritySearch
with the configured topK and return its documents. A rejected embedding
call propagates unchanged (retrieve installs no handler). -/
def retrieve (generateEmbeddingsFn : List String → Except RagError (List (List ℚ)))
    (store : VectorStore) (topK : Nat) (query : String) :
    Except RagError (List Document) :=
  match generateEmbeddingsFn [query] with
  | .error e => .error e
  | .ok embs =>
      match embs.head? with
      | none => .ok []
      | some queryEmbedding => store.similaritySearch queryEmbedding topK

/-- JS Array.prototype.join with a separator string. -/
def joinWith (sep : String) : List String → String
  | [] => ""
  | [x] => x
  | x :: y :: rest => x ++ sep ++ joinWith sep (y :: rest)

/-- Retriever.formatContext (lines 63-65):
documents.map(doc => doc.content).join with the fixed separator. -/
def formatContext (documents : List Document) : String :=
  joinWith "\n\n---\n\n" (documents.map (fun doc => doc.content))

/-- The slicing loop for (i = 0; i < l.length; i += n) over l.slice(i, i+n),
written with an explicit structural bound (the list length) so that it
evaluates by kernel reduction; the bound never runs out for n > 0. -/
def batchesAux {α : Type} (n : Nat) : Nat → List α → List (List α)
  | _, [] => []
  | 0, l => [l]
  | fuel + 1, x :: xs => (x :: xs).take n :: batchesAux n fuel (xs.drop (n - 1))

/-- Batches of size n taken left to right, the last one possibly short. -/
def batches {α : Type} (n : Nat) (l : List α) : List (List α) :=
  batchesAux n l.length l

/-- OpenAIEmbeddingAdapter.generateEmbeddings (scripts/reset.ts lines
163-187): process the texts in batches of BATCH_SIZE = 100, replacing
newlines by spaces, pushing each response batch onto the accumulated
embeddings; a failing batch rethrows, discarding everything accumulated. -/
def generateEmbeddings (apiCreate : List String → Except RagError (List (List ℚ)))
    (texts : List String) : Except RagError (List (List ℚ)) :=
  (batches 100 texts).foldlM
    (fun allEmbeddings batchTextsRaw =>
      let batchTexts := batchTextsRaw.map (fun text => text.replace "\n" " ")
      (apiCreate batchTexts).map (fun embs => allEmbeddings ++ embs))
    []

/-- The embedding loop of processCollectionLogic (collectionProcessor.ts
lines 171-185): slice the documents into batches of
EMBEDDING_BATCH_SIZE = 100, embed the contents of each batch through the
injected adapter, and push copies of the documents carrying the returned
embeddings; the first failing batch aborts the whole loop with the
adapter error. -/
def processCollectionEmbedBatches
    (genEmb : List String → Except RagError (List (List ℚ)))
    (allSdkDocuments : List Document) : Except RagError (List Document) :=
  (batches 100 allSdkDocuments).foldlM
    (fun documentsWithEmbeddings batch =>
      let pageContents := batch.map (fun doc => doc.content)
      (genEmb pageContents).map (fun embeddings =>
        documentsWithEmbeddings ++
          batch.enum.map (fun p => { p.2 with embedding := embeddings[p.1]? })))
    []

/-- processCollectionLogic from the embedding phase onward (lines 171-193):
only when every batch has embedded are the documents upserted into the
vector store, in one addDocuments call; a failing batch throws out of the
function before any upsert, leaving the store as it was. The pair returned
is the outcome together with the final store state. -/
def processCollectionLogic
    (genEmb : List String → Except RagError (List (List ℚ)))
    (storeEmbedOne : String → List ℚ)
    (allSdkDocuments : List Document) (store : VectorStore) :
    Except RagError Unit × VectorStore :=
  match processCollectionEmbedBatches genEmb allSdkDocuments with
  | .error e => (.error e, store)
  | .ok documentsWithEmbeddings =>
      (.ok (), addDocumentsRun storeEmbedOne store documentsWithEmbeddings)

/-- Object-identity view of the document heap: documents live at numeric
references and a reference dereferences to the current document record. -/
abbrev Heap := Nat → Document

/-- The store at the reference level: a JS Map holds object references,
so the id maps to the reference of the stored document, not to a copy. -/
structure RefStore where
  entries : List (String × Nat)

/-- VectorStore.addDocuments at the reference level (lines 66-79): the
generated embedding is assigned onto the caller document object itself
(doc.embedding = embedding) and store.set(doc.id, doc) stores that same
reference; no copy of the document is ever taken. -/
def addDocumentsRef (embedOne : String → List ℚ) :
    List Nat → Heap → RefStore → Heap × RefStore
  | [], heap, store => (heap, store)
  | r :: rest, heap, store =>
      let doc := heap r
      let heapNext : Heap :=
        if doc.embedding.isSome then heap
        else fun x =>
          if x = r then { doc with embedding := some (embedOne doc.content) }
          else heap x
      addDocumentsRef embedOne rest heapNext ⟨mapSet store.entries (heapNext r).id r⟩

/-- Modelled from the spec: dot product of two vectors. The shipped code
never computes any similarity; this and the next definitions render the
ordering the specification prescribes for search results. -/
def dotProduct (a b : List ℚ) : ℚ := (List.zipWith (fun x y => x * y) a b).sum

/-- Modelled from the spec: Euclidean magnitude of a vector. -/
noncomputable def magnitude (a : List ℚ) : ℝ :=
  Real.sqrt ((dotProduct a a : ℚ) : ℝ)

/-- Modelled from the spec: cosine similarity, defined as zero when either
vector has zero magnitude. -/
noncomputable def cosineSim (a b : List ℚ) : ℝ :=
  if magnitude a = 0 ∨ magnitude b = 0 then 0
  else ((dotProduct a b : ℚ) : ℝ) / (magnitude a * magnitude b)

/-- Modelled from the spec: similarity of a query to a stored document. -/
noncomputable def docSim (q : List ℚ) (d : Document) : ℝ :=
  cosineSim q (d.embedding.getD [])

/-- Modelled from the spec: a result list is ranked when consecutive
results are in non-increasing cosine similarity to the query, ties broken
by ascending document id. -/
def rankedBySpec (q : List ℚ) (l : List Document) : Prop :=
  l.Pairwise (fun a b =>
    docSim q a > docSim q b ∨ (docSim q a = docSim q b ∧ a.id ≤ b.id))

/-! ### Helper lemmas on the association-list Map operations -/

theorem mapSet_mapSet_self {α : Type} (m : List (String × α)) (k : String) (v : α) :
    mapSet (mapSet m k v) k v = mapSet m k v := by
  induction m with
  | nil => simp [mapSet]
  | cons p rest ih =>
      by_cases h : p.1 = k
      · simp [mapSet, h]
      · simp [mapSet, h, ih]

theorem mapGet_mapSet_self {α : Type} (m : List (String × α)) (k : String) (v : α) :
    mapGet (mapSet m k v) k = some v := by
  induction m with
  | nil => simp [mapSet, mapGet, List.find?]
  | cons p rest ih =>
      by_cases h : p.1 = k
      · simp [mapSet, h, mapGet, List.find?]
      · simpa [mapSet, h, mapGet, List.find?] using ih

theorem length_mapSet_of_contains {α : Type} (m : List (String × α)) (k : String)
    (v : α) (h : m.any (fun p => decide (p.1 = k)) = true) :
    (mapSet m k v).length = m.length := by
  induction m with
  | nil => simp at h
  | cons p rest ih =>
      by_cases hp : p.1 = k
      · simp [mapSet, hp]
      · simp only [List.any_cons, hp, decide_False, Bool.false_or] at h
        simp [mapSet, hp, ih h]

theorem mem_mapSet {α : Type} (m : List (String × α)) (k : String) (v : α)
    (q : String × α) (hq : q ∈ mapSet m k v) : q = (k, v) ∨ q ∈ m := by
  induction m with
  | nil => simpa [mapSet] using hq
  | cons p rest ih =>
      by_cases h : p.1 = k
      · simp only [mapSet, h, if_pos] at hq
        rcases List.mem_cons.mp hq with h1 | h1
        · exact Or.inl h1
        · exact Or.inr (List.mem_cons_of_mem _ h1)
      · simp only [mapSet, h, if_neg, not_false_iff] at hq
        rcases List.mem_cons.mp hq with h1 | h1
        · exact Or.inr (by simp [h1])
        · rcases ih h1 with h2 | h2
          · exact Or.inl h2
          · exact Or.inr (List.mem_cons_of_mem _ h2)

theorem addDocumentsRun_all_isSome (embedOne : String → List ℚ)
    (store : VectorStore) (documents : List Document)
    (h : ∀ p ∈ store.entries, p.2.embedding.isSome = true) :
    ∀ p ∈ (addDocumentsRun embedOne store documents).entries,
      p.2.embedding.isSome = true := by
  induction documents generalizing store with
  | nil => simpa [addDocumentsRun] using h
  | cons doc rest ih =>
      intro p hp
      refine ih ⟨mapSet store.entries _ _⟩ ?_ p hp
      intro q hq
      rcases mem_mapSet _ _ _ q hq with h1 | h1
      · subst h1
        by_cases hd : doc.embedding.isSome
        · simp [hd]
        · simp [hd]
      · exact h q h1

/-! ### Concrete instances used by witnesses and counterexamples -/

/-- A document upserted with embedding along the first axis. -/
def docB : Document := { id := "b", content := "cb", embedding := some [1, 0] }

/-- A document upserted with embedding along the second axis. -/
def docA : Document := { id := "a", content := "ca", embedding := some [0, 1] }

/-- Store holding docA then docB, built through addDocuments. -/
def storeAB : VectorStore :=
  addDocumentsRun (fun _ => []) VectorStore.empty [docA, docB]

/-- A document that arrives without an embedding. -/
def docNoEmb : Document := { id := "x", content := "hello" }

/-- A deterministic embedding model used in concrete instances. -/
def embedSeven : String → List ℚ := fun _ => [7]

/-- A store already holding one two-dimensional embedding. -/
def storeDim : VectorStore := ⟨[("a", docA)]⟩

/-- An embedding capability that resolves with zero vectors. -/
def genEmbNone : List String → Except RagError (List (List ℚ)) :=
  fun _ => .ok []

/-- An embedding capability that resolves with one vector per text. -/
def genEmbOne : List String → Except RagError (List (List ℚ)) :=
  fun texts => .ok (texts.map (fun _ => [1]))

/-- An embedding capability that rejects every call. -/
def genEmbReject : List String → Except RagError (List (List ℚ)) :=
  fun _ => .error RagError.embeddingFailure

/-- 150 documents with distinct ids and no embeddings, as produced by the
chunking phase of processCollectionLogic. -/
def docsIngest : List Document :=
  (List.range 150).map (fun i => { id := "d" ++ toString i, content := "c" })

/-- An embedding capability that succeeds on full batches of 100 texts and
fails on the trailing batch of 50: the second batch of docsIngest fails. -/
def genEmbFailSecond : List String → Except RagError (List (List ℚ)) :=
  fun texts =>
    if texts.length = 100 then .ok (texts.map (fun _ => [1]))
    else .error RagError.embeddingFailure

/-! ### Claims -/

/-- C7: similaritySearch on a store holding zero documents resolves with
the empty sequence, never an error, for every query vector and topK. -/
theorem search_empty_store (store : VectorStore) (h : store.size = 0)
    (q : List ℚ) (topK : Nat) :
    store.similaritySearch q topK = .ok [] := by
  have hnil : store.entries = [] := by
    simpa [VectorStore.size] using List.length_eq_zero.mp h
  simp [VectorStore.similaritySearch, VectorStore.values, hnil]

/-- Witness for search_empty_store at the freshly constructed store. -/
theorem search_empty_store_witness :
    VectorStore.empty.similaritySearch [(1 : ℚ), 0] 3 = .ok [] :=
  search_empty_store VectorStore.empty rfl [(1 : ℚ), 0] 3

/-- C8: formatContext of the empty list is the empty string, and of a
two-document list is the two contents joined by the separator
newline-newline-dashes-newline-newline. -/
theorem formatContext_empty_and_pair :
    formatContext [] = ""
    ∧ ∀ d1 d2 : Document,
        formatContext [d1, d2] = d1.content ++ "\n\n---\n\n" ++ d2.content := by
  exact ⟨rfl, fun d1 d2 => rfl⟩

/-- C9: similaritySearch is independent of the query embedding: any two
query vectors give the same result, namely the first min(topK, size)
stored documents in insertion order. -/
theorem search_ignores_query (store : VectorStore) (q1 q2 : List ℚ) (topK : Nat) :
    store.similaritySearch q1 topK = store.similaritySearch q2 topK
    ∧ store.similaritySearch q1 topK = .ok (store.values.take topK)
    ∧ (store.values.take topK).length = min topK store.size := by
  refine ⟨rfl, rfl, ?_⟩
  simp [VectorStore.size, VectorStore.values]

/-- C6: upsert has replace semantics (a re-inserted id does not grow the
store) and is idempotent for identical input: re-upserting the same
embedded document leaves the store, its size, and every subsequent
similarity search unchanged. -/
theorem upsert_replaces_and_idempotent (embedOne : String → List ℚ)
    (store : VectorStore) (d : Document) (hemb : d.embedding.isSome = true) :
    addDocumentsRun embedOne (addDocumentsRun embedOne store [d]) [d]
        = addDocumentsRun embedOne store [d]
    ∧ (store.entries.any (fun p => decide (p.1 = d.id)) = true →
        (addDocumentsRun embedOne store [d]).size = store.size)
    ∧ ∀ q topK,
        (addDocumentsRun embedOne (addDocumentsRun embedOne store [d]) [d]).similaritySearch q topK
          = (addDocumentsRun embedOne store [d]).similaritySearch q topK := by
  have hrun : ∀ s : VectorStore,
      addDocumentsRun embedOne s [d] = ⟨mapSet s.entries d.id d⟩ := by
    intro s
    simp [addDocumentsRun, hemb]
  have hidem : addDocumentsRun embedOne (addDocumentsRun embedOne store [d]) [d]
      = addDocumentsRun embedOne store [d] := by
    rw [hrun store, hrun ⟨mapSet store.entries d.id d⟩]
    exact congrArg VectorStore.mk (mapSet_mapSet_self store.entries d.id d)
  refine ⟨hidem, ?_, ?_⟩
  · intro hmem
    rw [hrun store]
    exact length_mapSet_of_contains store.entries d.id d hmem
  · intro q topK
    rw [hidem]

/-- Witness for upsert_replaces_and_idempotent: re-upserting docA into the
store that already holds it changes neither the store nor its size. -/
theorem upsert_replaces_and_idempotent_witness :
    addDocumentsRun embedSeven (addDocumentsRun embedSeven storeDim [docA]) [docA]
        = addDocumentsRun embedSeven storeDim [docA]
    ∧ (addDocumentsRun embedSeven storeDim [docA]).size = storeDim.size :=
  ⟨(upsert_replaces_and_idempotent embedSeven storeDim docA (by decide)).1,
   (upsert_replaces_and_idempotent embedSeven storeDim docA (by decide)).2.1 (by decide)⟩

/-- C10: addDocuments mutates the caller's document in place: a document
passed in without an embedding has the generated embedding written onto
that same object, and the store entry for its id is that same reference. -/
theorem addDocuments_aliases_input (embedOne : String → List ℚ)
    (heap : Heap) (store : RefStore) (r : Nat)
    (h : (heap r).embedding = none) :
    (addDocumentsRef embedOne [r] heap store).1 r
        = { heap r with embedding := some (embedOne (heap r).content) }
    ∧ mapGet (addDocumentsRef embedOne [r] heap store).2.entries (heap r).id
        = some r := by
  have hnone : (heap r).embedding.isSome = false := by simp [h]
  have hheap : (addDocumentsRef embedOne [r] heap store).1
      = fun x => if x = r
          then { heap r with embedding := some (embedOne (heap r).content) }
          else heap x := by
    simp [addDocumentsRef, hnone]
  constructor
  · rw [hheap]
    simp
  · have hstore : (addDocumentsRef embedOne [r] heap store).2.entries
        = mapSet store.entries (heap r).id r := by
      simp [addDocumentsRef, hnone]
    rw [hstore]
    exact mapGet_mapSet_self store.entries (heap r).id r

/-- Witness for addDocuments_aliases_input on a one-object heap. -/
theorem addDocuments_aliases_input_witness :
    (addDocumentsRef embedSeven [0] (fun _ => docNoEmb) ⟨[]⟩).1 0
        = { docNoEmb with embedding := some [7] }
    ∧ mapGet (addDocumentsRef embedSeven [0] (fun _ => docNoEmb) ⟨[]⟩).2.entries "x"
        = some 0 :=
  addDocuments_aliases_input embedSeven (fun _ => docNoEmb) ⟨[]⟩ 0 rfl

/-- C3 as stated is false: a batch containing a document with no embedding
is not rejected with a missing-embedding error; addDocuments generates an
embedding from the content and stores the document. -/
theorem missing_embedding_counterexample :
    VectorStore.addDocuments embedSeven VectorStore.empty [docNoEmb]
        = .ok ⟨[("x", { docNoEmb with embedding := some [7] })]⟩
    ∧ VectorStore.addDocuments embedSeven VectorStore.empty [docNoEmb]
        ≠ .error RagError.missingEmbedding := by
  constructor
  · rfl
  · intro h
    simp [VectorStore.addDocuments] at h

/-- C3 amended: addDocuments never rejects; a document lacking an
embedding is silently given one generated from its content by the store's
embedding model, so a store whose documents all carry embeddings still has
that property after any addDocuments call. -/
theorem addDocuments_never_rejects (embedOne : String → List ℚ)
    (store : VectorStore) (documents : List Document) :
    (∃ st, VectorStore.addDocuments embedOne store documents = .ok st)
    ∧ ((∀ p ∈ store.entries, p.2.embedding.isSome = true) →
        ∀ p ∈ (addDocumentsRun embedOne store documents).entries,
          p.2.embedding.isSome = true) :=
  ⟨⟨addDocumentsRun embedOne store documents, rfl⟩,
   fun h => addDocumentsRun_all_isSome embedOne store documents h⟩

/-- Witness for addDocuments_never_rejects: adding an embedding-less
document to the empty store resolves, and every stored document then
carries an embedding. -/
theorem addDocuments_never_rejects_witness :
    (∃ st, VectorStore.addDocuments embedSeven VectorStore.empty [docNoEmb] = .ok st)
    ∧ ∀ p ∈ (addDocumentsRun embedSeven VectorStore.empty [docNoEmb]).entries,
        p.2.embedding.isSome = true :=
  ⟨(addDocuments_never_rejects embedSeven VectorStore.empty [docNoEmb]).1,
   (addDocuments_never_rejects embedSeven VectorStore.empty [docNoEmb]).2
     (by decide)⟩

/-- C4 as stated is false: with the store dimension established at 2 by
docA, a query of length 3 does not fail with a dimension mismatch; the
search resolves with the first stored document. -/
theorem dimension_mismatch_counterexample :
    ([(1 : ℚ), 0, 0].length ≠ (docA.embedding.getD []).length)
    ∧ storeDim.similaritySearch [1, 0, 0] 1 = .ok [docA]
    ∧ storeDim.similaritySearch [1, 0, 0] 1 ≠ .error RagError.dimensionMismatch := by
  refine ⟨by decide, rfl, ?_⟩
  intro h
  simp [VectorStore.similaritySearch] at h

/-- C4 amended: similaritySearch performs no dimension validation at all:
for a query vector of any length it resolves with the first
min(topK, size) stored documents and never produces an error; the query
vector is ignored rather than truncated or padded. -/
theorem search_never_dimension_mismatch (store : VectorStore) (q : List ℚ)
    (topK : Nat) :
    store.similaritySearch q topK = .ok (store.values.take topK)
    ∧ ∀ e : RagError, store.similaritySearch q topK ≠ .error e := by
  refine ⟨rfl, ?_⟩
  intro e h
  simp [VectorStore.similaritySearch] at h

/-- Witness for search_never_dimension_mismatch at a length-3 query
against the dimension-2 store. -/
theorem search_never_dimension_mismatch_witness :
    storeDim.similaritySearch [1, 0, 0] 1 = .ok (storeDim.values.take 1) :=
  (search_never_dimension_mismatch storeDim [1, 0, 0] 1).1

/-- C5 as stated is false: when the embedding capability resolves with
zero vectors, retrieve resolves with the empty list instead of failing
with an embedding error, even though the store has a document to return. -/
theorem retrieve_zero_vectors_counterexample :
    retrieve genEmbNone storeDim 5 "q" = .ok []
    ∧ retrieve genEmbNone storeDim 5 "q" ≠ .error RagError.embeddingFailure := by
  constructor
  · rfl
  · intro h
    simp [retrieve, genEmbNone] at h

/-- C5 amended: retrieve calls the capability with the singleton list of
the query; a capability error propagates unchanged; zero returned vectors
yield a successful empty result; otherwise the first returned vector is
passed to similaritySearch and its documents are returned in order. -/
theorem retrieve_behavior (generateEmbeddingsFn : List String → Except RagError (List (List ℚ)))
    (store : VectorStore) (topK : Nat) (query : String) :
    (∀ e, generateEmbeddingsFn [query] = .error e →
        retrieve generateEmbeddingsFn store topK query = .error e)
    ∧ (generateEmbeddingsFn [query] = .ok [] →
        retrieve generateEmbeddingsFn store topK query = .ok [])
    ∧ (∀ qe rest, generateEmbeddingsFn [query] = .ok (qe :: rest) →
        retrieve generateEmbeddingsFn store topK query
          = store.similaritySearch qe topK) := by
  refine ⟨?_, ?_, ?_⟩
  · intro e he
    simp [retrieve, he]
  · intro hok
    simp [retrieve, hok]
  · intro qe rest hok
    simp [retrieve, hok]

/-- Witness for retrieve_behavior: a rejecting capability propagates its
error, and a one-vector capability yields the similarity search result. -/
theorem retrieve_behavior_witness :
    retrieve genEmbReject storeDim 2 "q" = .error RagError.embeddingFailure
    ∧ retrieve genEmbOne storeDim 2 "q" = storeDim.similaritySearch [1] 2 :=
  ⟨(retrieve_behavior genEmbReject storeDim 2 "q").1 RagError.embeddingFailure rfl,
   (retrieve_behavior genEmbOne storeDim 2 "q").2.2 [1] [] rfl⟩

/-! ### Similarity values at the C1 counterexample vectors -/

theorem magnitude_oneZero : magnitude [1, 0] = 1 := by
  have h : dotProduct [1, 0] [1, 0] = 1 := by norm_num [dotProduct]
  simp [magnitude, h]

theorem magnitude_zeroOne : magnitude [0, 1] = 1 := by
  have h : dotProduct [0, 1] [0, 1] = 1 := by norm_num [dotProduct]
  simp [magnitude, h]

theorem docSim_query_docA : docSim [1, 0] docA = 0 := by
  have hd : dotProduct [1, 0] [0, 1] = 0 := by norm_num [dotProduct]
  simp [docSim, docA, cosineSim, magnitude_oneZero, magnitude_zeroOne, hd]

theorem docSim_query_docB : docSim [1, 0] docB = 1 := by
  have hd : dotProduct [1, 0] [1, 0] = 1 := by norm_num [dotProduct]
  simp [docSim, docB, cosineSim, magnitude_oneZero, hd]

/-- C1 as stated is false: upsert docA with embedding [0,1] then docB with
embedding [1,0]; the search for query [1,0] with topK 2 returns
[docA, docB], insertion order, although docA has cosine similarity 0 and
docB has cosine similarity 1 to the query, so the result is not in
non-increasing similarity order. -/
theorem search_not_ranked_counterexample :
    storeAB.similaritySearch [1, 0] 2 = .ok [docA, docB]
    ∧ ¬ rankedBySpec [1, 0] [docA, docB] := by
  constructor
  · rfl
  · intro hcontra
    have hrel := (List.pairwise_cons.mp hcontra).1 docB (by simp)
    rw [docSim_query_docA, docSim_query_docB] at hrel
    rcases hrel with h | ⟨h, _⟩
    · norm_num at h
    · norm_num at h

/-- C1 amended: after any upserts and for any query vector and topK, the
search resolves with exactly min(topK, size) results, namely the first
min(topK, size) stored documents in insertion order; no cosine ranking is
performed. -/
theorem search_returns_first_min (store : VectorStore) (q : List ℚ) (topK : Nat) :
    ∃ l, store.similaritySearch q topK = .ok l
      ∧ l.length = min topK store.size
      ∧ l = store.values.take topK := by
  refine ⟨store.values.take topK, rfl, ?_, rfl⟩
  simp [VectorStore.size, VectorStore.values]

set_option maxRecDepth 100000 in
/-- C2 as stated is false: ingesting the 150 chunked documents where the
embedding capability fails on the second batch (the batch of 50) leaves
the store with 0 documents, not the 100 of the first batch, and the
capability error propagates as is; there is no batch-index payload. -/
theorem ingest_partial_batch_counterexample :
    docsIngest.length = 150
    ∧ (processCollectionLogic genEmbFailSecond (fun _ => []) docsIngest
        VectorStore.empty).2.size = 0
    ∧ ¬ (processCollectionLogic genEmbFailSecond (fun _ => []) docsIngest
        VectorStore.empty).2.size = 100
    ∧ (processCollectionLogic genEmbFailSecond (fun _ => []) docsIngest
        VectorStore.empty).1 = .error RagError.embeddingFailure := by
  refine ⟨rfl, rfl, by decide, rfl⟩

/-- C2 amended: ingestion commits nothing until every embedding batch has
succeeded: when any batch fails, the store is left exactly as it was and
the raw capability error propagates out of the operation. -/
theorem ingest_aborts_uncommitted
    (genEmb : List String → Except RagError (List (List ℚ)))
    (storeEmbedOne : String → List ℚ) (allSdkDocuments : List Document)
    (store : VectorStore) (e : RagError)
    (h : processCollectionEmbedBatches genEmb allSdkDocuments = .error e) :
    processCollectionLogic genEmb storeEmbedOne allSdkDocuments store
      = (.error e, store) := by
  simp [processCollectionLogic, h]

set_option maxRecDepth 100000 in
/-- Witness for ingest_aborts_uncommitted at the 150-document ingest whose
second embedding batch fails. -/
theorem ingest_aborts_uncommitted_witness :
    processCollectionLogic genEmbFailSecond (fun _ => []) docsIngest
        VectorStore.empty
      = (.error RagError.embeddingFailure, VectorStore.empty) :=
  ingest_aborts_uncommitted genEmbFailSecond (fun _ => []) docsIngest
    VectorStore.empty RagError.embeddingFailure (by rfl)

end RagSdk
